import Mathlib

/-!
Shallow embedding of the telemetry core of `fastapi-cloud-observability`
(`src/app/telemetry.py`), together with proofs of the spec's claims about it.

The embedding follows the Python source line by line:
* `OpenTelemetryGranularity` and its `__lt__` comparator (telemetry.py lines 24-51),
  including Python's duck typing: the process-wide `granularity` global may hold
  either an enum member or a raw string (line 290 passes `os.environ.get(...)`,
  a string, straight through), and `list.index` raises `ValueError` when the
  argument is not in the list.
* the `trace_method` decorator's `wrapper` (lines 129-141), modelled as a function
  from the wrapped work's outcome (`Except ε α`) and the process-wide telemetry
  state to the wrapper's outcome plus the list of span open/close events emitted.
* the counter registry `add_counter` (lines 204-209) and the observable-gauge
  registration `add_observable_gauge` (lines 182-202).
* Python `Enum` construction by value (`OpenTelemetryGranularity("...")`).
-/

namespace FastapiObs

/-- `OpenTelemetryGranularity` (telemetry.py lines 24-40), declared in source
order NONE, SERVICE, DB, API, ALL with string values "none", "service", "db",
"api", "all". -/
inductive OpenTelemetryGranularity where
  | NONE
  | SERVICE
  | DB
  | API
  | ALL
deriving DecidableEq, Repr

open OpenTelemetryGranularity

/-- Python exceptions that the telemetry layer itself can raise.
`valueError` is Python's built-in `ValueError` (raised by `list.index` and by
`Enum` construction from an unknown value). `invalidConfigurationError` is the
exception type named by the spec's error taxonomy; it appears nowhere in the
source, and the constructor exists here only so that statements can distinguish
the exception type the code actually raises from the one the spec names. -/
inductive PyError where
  | valueError (msg : String)
  | invalidConfigurationError (msg : String)
deriving DecidableEq, Repr

/-- A Python value that the process-wide `granularity` global can hold: an enum
member, or a raw string (telemetry.py line 290 passes
`os.environ.get("OTEL_TRACE_GRANULARITY", OpenTelemetryGranularity.ALL)` to the
constructor without converting the string to the enum). -/
inductive PyVal where
  | gran (g : OpenTelemetryGranularity)
  | str (s : String)
deriving DecidableEq, Repr

/-- Python `repr` of a `PyVal`, used in the `ValueError` message of `list.index`. -/
def pyRepr : PyVal → String
  | .gran NONE => "<OpenTelemetryGranularity.NONE: 'none'>"
  | .gran SERVICE => "<OpenTelemetryGranularity.SERVICE: 'service'>"
  | .gran DB => "<OpenTelemetryGranularity.DB: 'db'>"
  | .gran API => "<OpenTelemetryGranularity.API: 'api'>"
  | .gran ALL => "<OpenTelemetryGranularity.ALL: 'all'>"
  | .str s => "'" ++ s ++ "'"

/-- Python `list.index` on a list of granularity members (telemetry.py line 51):
returns the first index whose element compares equal to `x`, and raises
`ValueError` when no element does. An enum member never compares equal to a
string, so `order.index(<string>)` raises. -/
def pyListIndex (x : PyVal) : List OpenTelemetryGranularity → Except PyError Nat
  | [] => .error (.valueError (pyRepr x ++ " is not in list"))
  | g :: rest =>
    if x = .gran g then .ok 0
    else do
      let i ← pyListIndex x rest
      return i + 1

/-- The fixed `order` list of `OpenTelemetryGranularity.__lt__`
(telemetry.py lines 44-50). -/
def order : List OpenTelemetryGranularity := [ALL, DB, SERVICE, API, NONE]

/-- `OpenTelemetryGranularity.__lt__` (telemetry.py lines 42-51):
`order.index(self) < order.index(other)`. `other` is typed `Any` in the source,
so it is modelled as a `PyVal`; a string argument makes `order.index` raise. -/
def granularity_lt (self : OpenTelemetryGranularity) (other : PyVal) :
    Except PyError Bool := do
  let i ← pyListIndex (.gran self) order
  let j ← pyListIndex other order
  return decide (i < j)

/-- Spec-side rank table: position in the fixed sequence
`[ALL, DB, SERVICE, API, NONE]` (index 0 = most verbose). Written from the
spec's words, to be compared against the source's `order.index`-based
comparator. -/
def rank : OpenTelemetryGranularity → Nat
  | ALL => 0
  | DB => 1
  | SERVICE => 2
  | API => 3
  | NONE => 4

/-- The process-wide telemetry globals read by the wrapper (telemetry.py
lines 54-55, updated by `_trace_init` lines 90-92): `tracer` is `None` until a
client is constructed, and `granularity` holds whatever was stored there — an
enum member, or the raw environment string from line 290. -/
structure TelemetryState where
  tracer : Option Unit
  granularity : PyVal
deriving DecidableEq, Repr

/-- One span lifecycle event emitted by `tracer.start_as_current_span`
(telemetry.py line 137): the span named `trace_name` is opened on entry to the
`with` block and ended when the block is exited, on both exit paths. -/
inductive SpanEvent where
  | spanStart (name : String)
  | spanEnd (name : String)
deriving DecidableEq, Repr

/-- Outcome of one call to the `wrapper` (telemetry.py lines 131-138): the
wrapped function's return value, the wrapped function's exception re-raised, or
an exception raised by the telemetry layer itself (the granularity comparison
on line 133). -/
inductive WrapResult (ε α : Type) where
  | ok (a : α)
  | workError (e : ε)
  | telemetryError (e : PyError)
deriving DecidableEq, Repr

/-- Lift the wrapped work's own outcome into a `WrapResult`: returning the
work's value or re-raising the work's exception unchanged. -/
def ofWork : Except ε α → WrapResult ε α
  | .ok a => .ok a
  | .error e => .workError e

/-- The `wrapper` produced by `OTELTelemetryClient.trace_method`
(telemetry.py lines 131-138). The wrapped call `f(*args, **kwargs)` is modelled
by its outcome `work : Except ε α`. Line 133: if
`trace_granularity < granularity` the work runs with no span (and if that
comparison itself raises, the exception propagates and the work never runs).
Line 135: if `tracer` is falsy (`None`) the work runs with no span. Line 137:
otherwise a span named `trace_name` is opened for the duration of the work and
ended on both the normal and the raising exit path (`with` semantics), and the
work's outcome propagates unchanged. The second component is the list of span
events emitted. -/
def wrapper (trace_name : String) (trace_granularity : OpenTelemetryGranularity)
    (st : TelemetryState) (work : Except ε α) :
    WrapResult ε α × List SpanEvent :=
  match granularity_lt trace_granularity st.granularity with
  | .error e => (.telemetryError e, [])
  | .ok true => (ofWork work, [])
  | .ok false =>
    match st.tracer with
    | none => (ofWork work, [])
    | some _ =>
      (ofWork work, [.spanStart trace_name, .spanEnd trace_name])

/-- Module-level construction of the `telemetry` singleton (telemetry.py
line 290): `os.environ.get("OTEL_TRACE_GRANULARITY", OpenTelemetryGranularity.ALL)`
returns the environment string unchanged when the variable is set, and the enum
member `ALL` when it is not. This value is stored into the process-wide
`granularity` global by `_trace_init` (line 92). -/
def envGranularity (env : Option String) : PyVal :=
  match env with
  | some s => .str s
  | none => .gran ALL

/-- Python `Enum` construction by value, `OpenTelemetryGranularity(value)`:
look the string up among the members' values (telemetry.py lines 27-40); an
unrecognized value raises the built-in `ValueError` — no
`InvalidConfigurationError` type exists in the source. -/
def granularityOfString (s : String) : Except PyError OpenTelemetryGranularity :=
  if s = "none" then .ok NONE
  else if s = "service" then .ok SERVICE
  else if s = "db" then .ok DB
  else if s = "api" then .ok API
  else if s = "all" then .ok ALL
  else .error (.valueError ("'" ++ s ++ "' is not a valid OpenTelemetryGranularity"))

/-- Discriminator for the exception type the spec's error taxonomy names. -/
def isInvalidConfigurationError : PyError → Bool
  | .invalidConfigurationError _ => true
  | .valueError _ => false

-- Helper lemmas ---------------------------------------------------------------

/-- On an enum-member argument, the source comparator agrees with the spec-side
rank table: `granularity_lt a (gran b)` computes `rank a < rank b`. -/
theorem granularity_lt_gran (a b : OpenTelemetryGranularity) :
    granularity_lt a (.gran b) = .ok (decide (rank a < rank b)) := by
  cases a <;> cases b <;> rfl

/-- On a string argument the comparator raises `ValueError` from `list.index`. -/
theorem granularity_lt_str (a : OpenTelemetryGranularity) (s : String) :
    granularity_lt a (.str s) =
      .error (.valueError (pyRepr (.str s) ++ " is not in list")) := by
  cases a <;> rfl

-- Claim theorems: the trace_method wrapper (C1, C2, C3, C5) -------------------

/-- C1: for every pair of granularity values `(call, configured)` and every
state of the process-wide tracer, the `trace_method` wrapper creates a span
around the work iff `rank call ≥ rank configured` (in the fixed order
`[ALL, DB, SERVICE, API, NONE]`) and a tracer has been initialized; in every
other case it invokes the work directly with no span. Both branches are given
by one equation: the result is always the work's outcome, and the span events
are `[spanStart, spanEnd]` exactly when the gate passes, `[]` otherwise. -/
theorem trace_method_gate (ε α : Type) (n : String)
    (call conf : OpenTelemetryGranularity) (tr : Option Unit)
    (work : Except ε α) :
    wrapper n call { tracer := tr, granularity := .gran conf } work =
      if rank conf ≤ rank call ∧ tr.isSome = true then
        (ofWork work, [.spanStart n, .spanEnd n])
      else (ofWork work, []) := by
  have hlt := granularity_lt_gran call conf
  rcases tr with _ | _ <;> by_cases h : rank call < rank conf <;>
    simp [wrapper, hlt, h, Nat.not_le.mpr, Nat.not_lt.mp, Nat.le_of_not_lt,
      Nat.not_le_of_lt]

/-- C2: for every wrapped unit of work and every telemetry state whose
configured granularity is a granularity value, the wrapper's outcome is exactly
the work's outcome (`ofWork`): the work's return value is returned unchanged on
the spanned and the unspanned path alike, and the work's exception is re-raised
unchanged — never swallowed, replaced, or transformed. -/
theorem trace_method_transparent (ε α : Type) (n : String)
    (call conf : OpenTelemetryGranularity) (tr : Option Unit)
    (work : Except ε α) :
    (wrapper n call { tracer := tr, granularity := .gran conf } work).1 =
      ofWork work := by
  have hlt := granularity_lt_gran call conf
  rcases tr with _ | _ <;> by_cases h : rank call < rank conf <;>
    simp [wrapper, hlt, h]

/-- C3: on every invocation of the wrapper — over every telemetry state,
including the broken string-configured one, and both the normally-returning and
the raising work — the span events are either none at all or exactly one
`spanStart` followed by exactly one `spanEnd`: a span that is opened is closed
exactly once, on both exit paths. -/
theorem trace_method_span_closed_once (ε α : Type) (n : String)
    (call : OpenTelemetryGranularity) (st : TelemetryState)
    (work : Except ε α) :
    ((wrapper n call st work).2.count (SpanEvent.spanEnd n) =
        (wrapper n call st work).2.count (SpanEvent.spanStart n))
    ∧ (wrapper n call st work).2.count (SpanEvent.spanEnd n) ≤ 1
    ∧ ((wrapper n call st work).2 = [] ∨
        (wrapper n call st work).2 =
          [SpanEvent.spanStart n, SpanEvent.spanEnd n]) := by
  obtain ⟨tr, g⟩ := st
  rcases g with g | s
  · have hlt := granularity_lt_gran call g
    rcases tr with _ | _ <;> by_cases h : rank call < rank g <;>
      simp [wrapper, hlt, h, List.count_cons]
  · simp [wrapper, granularity_lt_str]

/-- C5 (code bug): with `OTEL_TRACE_GRANULARITY` set in the environment — even
to the valid name `"api"` — telemetry.py line 290 stores the raw string into
the process-wide `granularity` global without converting it to the enum, so
the comparison `trace_granularity < granularity` on line 133 calls
`order.index('api')`, which raises `ValueError`. A telemetry-layer failure
then fails the business-logic call (here `ItemService.create_item`, declared
at SERVICE granularity, whose work would have returned 42), contradicting the
spec's isolation contract. -/
theorem env_granularity_string_raises :
    wrapper "ItemService.create_item" SERVICE
        { tracer := some (), granularity := envGranularity (some "api") }
        (Except.ok 42 : Except String Nat) =
      (.telemetryError (.valueError "'api' is not in list"), [])
    ∧ (wrapper "ItemService.create_item" SERVICE
        { tracer := some (), granularity := envGranularity (some "api") }
        (Except.ok 42 : Except String Nat)).1 ≠
        ofWork (Except.ok 42 : Except String Nat) := by
  constructor
  · rfl
  · decide

-- Claim theorems: the granularity order (C4, C6, C10) -------------------------

/-- C4: the source's `__lt__` comparator is exactly the strict order of
positions in the fixed sequence `[ALL, DB, SERVICE, API, NONE]`: on enum
members it computes `rank a < rank b` with the spec-side rank table, the rank
is injective (each level has a unique rank), the order is irreflexive,
transitive and total (trichotomous), and the five ranks are 0..4. -/
theorem granularity_lt_strict_total_order :
    (∀ a b : OpenTelemetryGranularity,
        granularity_lt a (.gran b) = .ok (decide (rank a < rank b)))
    ∧ (∀ a b : OpenTelemetryGranularity, rank a = rank b → a = b)
    ∧ (∀ a : OpenTelemetryGranularity, granularity_lt a (.gran a) = .ok false)
    ∧ (∀ a b c : OpenTelemetryGranularity,
        granularity_lt a (.gran b) = .ok true →
        granularity_lt b (.gran c) = .ok true →
        granularity_lt a (.gran c) = .ok true)
    ∧ (∀ a b : OpenTelemetryGranularity, a ≠ b →
        granularity_lt a (.gran b) = .ok true ∨
        granularity_lt b (.gran a) = .ok true)
    ∧ rank ALL = 0 ∧ rank DB = 1 ∧ rank SERVICE = 2 ∧ rank API = 3
    ∧ rank NONE = 4 := by
  refine ⟨granularity_lt_gran, ?_, ?_, ?_, ?_, rfl, rfl, rfl, rfl, rfl⟩
  · intro a b h
    cases a <;> cases b <;> simp_all [rank]
  · intro a
    cases a <;> rfl
  · intro a b c hab hbc
    rw [granularity_lt_gran] at hab hbc
    rw [granularity_lt_gran]
    simp only [Except.ok.injEq, decide_eq_true_eq] at hab hbc ⊢
    omega
  · intro a b hne
    have hr : rank a ≠ rank b := by cases a <;> cases b <;> simp_all [rank]
    rw [granularity_lt_gran, granularity_lt_gran]
    simp only [Except.ok.injEq, decide_eq_true_eq]
    omega

/-- C6 counterexample: constructing a granularity from the unrecognized string
`"bogus"` raises Python's built-in `ValueError` (the `Enum` lookup failure) —
which is not `InvalidConfigurationError` — refuting the claim as stated. -/
theorem granularityOfString_bogus_raises_value_error :
    granularityOfString "bogus" =
      .error (.valueError "'bogus' is not a valid OpenTelemetryGranularity")
    ∧ isInvalidConfigurationError
        (.valueError "'bogus' is not a valid OpenTelemetryGranularity") =
      false :=
  ⟨rfl, rfl⟩

/-- C6 amended: constructing a granularity value from a string that is not one
of the five recognized names fails, but with the built-in `ValueError` raised
by the `Enum` value lookup; no `InvalidConfigurationError` type exists in the
source. -/
theorem granularityOfString_unrecognized (s : String)
    (h1 : s ≠ "none") (h2 : s ≠ "service") (h3 : s ≠ "db") (h4 : s ≠ "api")
    (h5 : s ≠ "all") :
    granularityOfString s =
      .error
        (.valueError ("'" ++ s ++ "' is not a valid OpenTelemetryGranularity")) := by
  simp [granularityOfString, h1, h2, h3, h4, h5]

/-- Witness for the amended C6 at the concrete unrecognized string `"bogus"`. -/
theorem granularityOfString_unrecognized_witness :
    granularityOfString "bogus" =
      .error
        (.valueError
          ("'" ++ "bogus" ++ "' is not a valid OpenTelemetryGranularity")) :=
  granularityOfString_unrecognized "bogus" (by decide) (by decide) (by decide)
    (by decide) (by decide)

/-- C10: NONE is the maximum element of the order — `NONE < g` is false for
every granularity `g` — so a call site declared at NONE always passes the
`trace_method` gate and is wrapped in a span whenever a tracer is initialized,
whatever the configured granularity; and no declared level opts a call site
out of tracing: with configured granularity ALL and a tracer, every declared
level gets a span. -/
theorem granularity_none_is_max (ε α : Type) (n : String)
    (g conf call : OpenTelemetryGranularity) (tr : Option Unit)
    (work : Except ε α) (htr : tr.isSome = true) :
    granularity_lt NONE (.gran g) = .ok false
    ∧ wrapper n NONE { tracer := tr, granularity := .gran conf } work =
        (ofWork work, [.spanStart n, .spanEnd n])
    ∧ wrapper n call { tracer := tr, granularity := .gran ALL } work =
        (ofWork work, [.spanStart n, .spanEnd n]) := by
  rcases tr with _ | _
  · simp at htr
  refine ⟨?_, ?_, ?_⟩
  · cases g <;> rfl
  · cases conf <;> rfl
  · cases call <;> rfl

/-- Witness for C10 at concrete inputs: declared NONE with configured API, and
declared DB with configured ALL, both get a span when a tracer exists. -/
theorem granularity_none_is_max_witness :
    granularity_lt NONE (.gran ALL) = .ok false
    ∧ wrapper "n" NONE { tracer := some (), granularity := .gran API }
        (Except.ok 0 : Except Unit Nat) =
        (ofWork (Except.ok 0), [.spanStart "n", .spanEnd "n"])
    ∧ wrapper "n" DB { tracer := some (), granularity := .gran ALL }
        (Except.ok 0 : Except Unit Nat) =
        (ofWork (Except.ok 0), [.spanStart "n", .spanEnd "n"]) :=
  granularity_none_is_max Unit Nat "n" ALL API DB (some ()) (Except.ok 0) rfl

-- Metrics registry ------------------------------------------------------------

/-- Python dict lookup by string key, modelling `name in self._counters.keys()`
and `self._counters[name]` (telemetry.py lines 207-209): the stored instrument
for the first matching key, or nothing. -/
def lookupCounter : List (String × Nat) → String → Option Nat
  | [], _ => none
  | (k, v) :: rest, nm => if k = nm then some v else lookupCounter rest nm

/-- State of the counter registry: `self._counters` (telemetry.py line 75) as
an association list, plus the process-wide meter, which hands a fresh
instrument object to each `meter.create_counter` call — modelled by the
fresh-id source `nextId`. -/
structure CounterState where
  counters : List (String × Nat)
  nextId : Nat
deriving DecidableEq, Repr

/-- `OTELTelemetryClient.add_counter` (telemetry.py lines 204-209): if `name`
is not yet a key of `self._counters`, create a fresh counter instrument via
`meter.create_counter` and store it under `name`; return the instrument stored
under `name`. -/
def add_counter (st : CounterState) (name : String) : CounterState × Nat :=
  match lookupCounter st.counters name with
  | some c => (st, c)
  | none =>
    ({ counters := st.counters ++ [(name, st.nextId)],
       nextId := st.nextId + 1 }, st.nextId)

/-- Registry invariant: every stored instrument id was handed out by the meter
(below `nextId`), instrument ids are pairwise distinct (each
`meter.create_counter` call returns a new object), and each name keys at most
one instrument (it is a dict). Holds of the empty registry the client starts
with and is preserved by `add_counter`. -/
def WFCounters (st : CounterState) : Prop :=
  (∀ p ∈ st.counters, p.2 < st.nextId)
  ∧ (st.counters.map Prod.snd).Nodup
  ∧ (st.counters.map Prod.fst).Nodup

/-- The process-wide meter's list of observable instruments: each
`meter.create_observable_gauge` call (telemetry.py line 202) appends one new
instrument carrying its name and its polling callback. Callbacks are kept
abstract (type `κ`). -/
structure Meter (κ : Type) where
  gauges : List (String × κ)

/-- `OTELTelemetryClient.add_observable_gauge` (telemetry.py lines 182-202):
wraps the callback and calls `meter.create_observable_gauge` unconditionally —
unlike `add_counter` there is no lookup of `name`, so every call registers a
new instrument. -/
def add_observable_gauge (m : Meter κ) (name : String) (cb : κ) : Meter κ :=
  ⟨m.gauges ++ [(name, cb)]⟩

/-- One export tick of the periodic metric reader: every registered
instrument's callback is invoked, in registration order. -/
def exportTick (m : Meter κ) : List κ := m.gauges.map Prod.snd

/-- The value a gauge polling callback returns: a single number or a sequence
of numbers (telemetry.py lines 182-183, 196-200). -/
inductive GaugeValue where
  | single (v : Int)
  | multiple (vs : List Int)
deriving DecidableEq, Repr

/-- An `Observation(value, {})` (telemetry.py lines 198-200): a value with an
empty attribute map. -/
structure Observation where
  value : Int
deriving DecidableEq, Repr

/-- The `cb` wrapper built inside `add_observable_gauge` (telemetry.py
lines 195-200): a single numeric value becomes one observation, a sequence
becomes one observation per element. -/
def cbObservations : GaugeValue → List Observation
  | .single v => [⟨v⟩]
  | .multiple vs => vs.map (fun v => ⟨v⟩)

-- Helper lemmas for the counter registry --------------------------------------

theorem lookupCounter_some_mem {l : List (String × Nat)} {nm : String} {c : Nat}
    (h : lookupCounter l nm = some c) : (nm, c) ∈ l := by
  induction l with
  | nil => simp [lookupCounter] at h
  | cons p rest ih =>
    obtain ⟨k, v⟩ := p
    by_cases hk : k = nm
    · subst hk
      simp [lookupCounter] at h
      simp [h]
    · simp [lookupCounter, hk] at h
      exact List.mem_cons_of_mem _ (ih h)

theorem lookupCounter_none_iff {l : List (String × Nat)} {nm : String} :
    lookupCounter l nm = none ↔ nm ∉ l.map Prod.fst := by
  induction l with
  | nil => simp [lookupCounter]
  | cons p rest ih =>
    obtain ⟨k, v⟩ := p
    by_cases hk : k = nm
    · subst hk
      simp [lookupCounter]
    · simp [lookupCounter, hk, ih, Ne.symm hk]

theorem lookupCounter_append {l₁ l₂ : List (String × Nat)} {nm : String} :
    lookupCounter (l₁ ++ l₂) nm =
      match lookupCounter l₁ nm with
      | some c => some c
      | none => lookupCounter l₂ nm := by
  induction l₁ with
  | nil => simp [lookupCounter]
  | cons p rest ih =>
    obtain ⟨k, v⟩ := p
    by_cases hk : k = nm <;> simp [lookupCounter, hk, ih]

/-- Ids pairwise distinct means an id determines its key. -/
theorem snd_nodup_key_eq {l : List (String × Nat)}
    (h : (l.map Prod.snd).Nodup) {k₁ k₂ : String} {v : Nat}
    (h₁ : (k₁, v) ∈ l) (h₂ : (k₂, v) ∈ l) : k₁ = k₂ := by
  induction l with
  | nil => cases h₁
  | cons p rest ih =>
    simp only [List.map_cons, List.nodup_cons] at h
    rcases List.mem_cons.mp h₁ with he₁ | hm₁ <;>
      rcases List.mem_cons.mp h₂ with he₂ | hm₂
    · rw [← he₂] at he₁
      exact congrArg Prod.fst he₁
    · exfalso
      apply h.1
      have hv : p.2 = v := by rw [← he₁]
      rw [hv]
      exact List.mem_map_of_mem Prod.snd hm₂
    · exfalso
      apply h.1
      have hv : p.2 = v := by rw [← he₂]
      rw [hv]
      exact List.mem_map_of_mem Prod.snd hm₁
    · exact ih h.2 hm₁ hm₂

/-- `add_counter` preserves the registry invariant. -/
theorem WFCounters_add (st : CounterState) (nm : String)
    (h : WFCounters st) : WFCounters (add_counter st nm).1 := by
  obtain ⟨h1, h2, h3⟩ := h
  unfold add_counter
  cases hl : lookupCounter st.counters nm with
  | some c => exact ⟨h1, h2, h3⟩
  | none =>
    refine ⟨?_, ?_, ?_⟩
    · intro p hp
      rcases List.mem_append.mp hp with hp | hp
      · exact Nat.lt_succ_of_lt (h1 p hp)
      · simp at hp
        simp [hp]
    · rw [List.map_append]
      refine List.Nodup.append h2 (by simp) ?_
      intro x hx hx'
      simp at hx'
      have := h1 _ (List.mem_map.mp hx).choose_spec.1
      rcases List.mem_map.mp hx with ⟨p, hp, hpx⟩
      have := h1 p hp
      omega
    · rw [List.map_append]
      refine List.Nodup.append h3 (by simp) ?_
      intro x hx hx'
      simp at hx'
      subst hx'
      exact (lookupCounter_none_iff.mp hl) hx

/-- Any sequence of `add_counter` calls preserves the registry invariant. -/
theorem WFCounters_foldl (names : List String) (st : CounterState)
    (h : WFCounters st) :
    WFCounters (names.foldl (fun s m => (add_counter s m).1) st) := by
  induction names generalizing st with
  | nil => exact h
  | cons m rest ih => exact ih _ (WFCounters_add st m h)

-- Claim theorems: the metrics registry (C7, C8) -------------------------------

/-- C7: the counter registry is idempotent per name. From a well-formed
registry, calling `add_counter` a second time with the same name returns the
identical instrument and leaves the registry unchanged (nothing new is
created); calling it with a different name returns a distinct instrument; and
after any sequence of calls the registry still retains at most one counter
instrument per name (its keys stay pairwise distinct). -/
theorem add_counter_registry (st : CounterState) (n n' : String)
    (names : List String) (hwf : WFCounters st) (hne : n ≠ n') :
    add_counter (add_counter st n).1 n = add_counter st n
    ∧ (add_counter (add_counter st n).1 n').2 ≠ (add_counter st n).2
    ∧ ((names.foldl (fun s m => (add_counter s m).1) st).counters.map
        Prod.fst).Nodup := by
  obtain ⟨h1, h2, h3⟩ := hwf
  refine ⟨?_, ?_, (WFCounters_foldl names st ⟨h1, h2, h3⟩).2.2⟩
  · cases hl : lookupCounter st.counters n with
    | some c => simp [add_counter, hl]
    | none =>
      simp only [add_counter, hl]
      rw [lookupCounter_append, hl]
      simp [lookupCounter]
  · cases hl : lookupCounter st.counters n with
    | some c =>
      simp only [add_counter, hl]
      cases hl' : lookupCounter st.counters n' with
      | some c' =>
        simp only
        intro hcc
        subst hcc
        exact hne (snd_nodup_key_eq h2 (lookupCounter_some_mem hl)
          (lookupCounter_some_mem hl'))
      | none =>
        simp only
        have := h1 _ (lookupCounter_some_mem hl)
        omega
    | none =>
      simp only [add_counter, hl]
      rw [lookupCounter_append]
      cases hl' : lookupCounter st.counters n' with
      | some c' =>
        simp only
        have := h1 _ (lookupCounter_some_mem hl')
        omega
      | none =>
        have hsingle : lookupCounter [(n, st.nextId)] n' = none := by
          simp [lookupCounter, hne]
        simp only [hsingle]
        omega

/-- Witness for C7 starting from the empty registry the client is constructed
with, at names "x" (registered twice), "y", and the call sequence
["x", "x", "y"]. -/
theorem add_counter_registry_witness :
    add_counter (add_counter ⟨[], 0⟩ "x").1 "x" = add_counter ⟨[], 0⟩ "x"
    ∧ (add_counter (add_counter ⟨[], 0⟩ "x").1 "y").2 ≠
        (add_counter ⟨[], 0⟩ "x").2
    ∧ ((["x", "x", "y"].foldl (fun s m => (add_counter s m).1)
        ⟨[], 0⟩).counters.map Prod.fst).Nodup :=
  add_counter_registry ⟨[], 0⟩ "x" "y" ["x", "x", "y"]
    (by refine ⟨?_, ?_, ?_⟩ <;> simp) (by decide)

/-- C8: observable-instrument registration performs no deduplication:
registering a gauge under the same name twice creates two independent
instruments under that name, both registrations' polling callbacks are invoked
on each export tick, and neither registration replaces or suppresses the other
(every previously registered callback is still invoked too). -/
theorem add_observable_gauge_no_dedup (κ : Type) (m : Meter κ) (name : String)
    (cb1 cb2 : κ) :
    ((add_observable_gauge (add_observable_gauge m name cb1) name
        cb2).gauges.countP (fun p => decide (p.1 = name)) =
      m.gauges.countP (fun p => decide (p.1 = name)) + 2)
    ∧ cb1 ∈ exportTick (add_observable_gauge (add_observable_gauge m name cb1)
        name cb2)
    ∧ cb2 ∈ exportTick (add_observable_gauge (add_observable_gauge m name cb1)
        name cb2)
    ∧ exportTick (add_observable_gauge (add_observable_gauge m name cb1) name
        cb2) = exportTick m ++ [cb1, cb2] := by
  refine ⟨?_, ?_, ?_, ?_⟩ <;>
    simp [add_observable_gauge, exportTick, List.countP_append,
      List.countP_cons]

-- Current trace id (spec-modelled) --------------------------------------------

/-- Lowercase hexadecimal digit character for `d < 16`. -/
def hexDigitChar (d : Nat) : Char :=
  if d < 10 then Char.ofNat (48 + d) else Char.ofNat (87 + d)

/-- The 16 lowercase hexadecimal digit characters. -/
def lowercaseHexDigits : List Char := "0123456789abcdef".toList

/-- The 32-hex-digit lowercase representation of a 128-bit trace identifier,
most significant digit first (OpenTelemetry's trace-id formatting). -/
def traceIdFormat (tid : Nat) : String :=
  String.mk
    ((List.range 32).map (fun i => hexDigitChar (tid / 16 ^ (31 - i) % 16)))

/-- The telemetry state the trace-id operation reads: the configured
granularity, the process-wide tracer, and the identifier of the trace of the
currently active span, when one is active. -/
structure TraceIdState where
  granularity : OpenTelemetryGranularity
  tracer : Option Unit
  activeTraceId : Option Nat

/-- Modelled from the spec: the operation `current_trace_id` — called from
app.py as `telemetry.get_current_span_id()` (app.py lines 31, 76, 86, 96, 106,
116) but whose definition is absent from the source tree. Per the spec
(§4.2/§8): returns the 32-hex-digit lowercase representation of the active
trace's identifier, or nothing if telemetry is disabled (configured
granularity NONE) or uninitialized (no tracer). -/
def current_trace_id (st : TraceIdState) : Option String :=
  if st.granularity = NONE then none
  else if st.tracer = none then none
  else st.activeTraceId.map traceIdFormat

theorem hexDigitChar_mem : ∀ d, d < 16 → hexDigitChar d ∈ lowercaseHexDigits := by
  decide

-- Claim theorem: current trace id (C9) ----------------------------------------

/-- C9: `current_trace_id` returns nothing when the configured granularity is
NONE or telemetry is uninitialized; otherwise, while a span is active, it
returns the formatted identifier of the active trace — a string of exactly 32
characters, each a lowercase hexadecimal digit. -/
theorem current_trace_id_spec (g : OpenTelemetryGranularity) (tr : Option Unit)
    (tid : Nat) (a : Option Nat) (hg : g ≠ NONE) (htr : tr.isSome = true) :
    current_trace_id ⟨NONE, tr, a⟩ = none
    ∧ current_trace_id ⟨g, none, a⟩ = none
    ∧ current_trace_id ⟨g, tr, some tid⟩ = some (traceIdFormat tid)
    ∧ (traceIdFormat tid).length = 32
    ∧ ∀ c ∈ (traceIdFormat tid).toList, c ∈ lowercaseHexDigits := by
  refine ⟨?_, ?_, ?_, ?_, ?_⟩
  · simp [current_trace_id]
  · simp [current_trace_id]
  · rcases tr with _ | _
    · simp at htr
    · simp [current_trace_id, hg]
  · simp [traceIdFormat, String.length]
  · intro c hc
    simp only [traceIdFormat, String.toList, String.mk, List.mem_map,
      List.mem_range] at hc
    obtain ⟨i, _, rfl⟩ := hc
    exact hexDigitChar_mem _ (Nat.mod_lt _ (by omega))

/-- Witness for C9 at concrete states: granularity NONE, an uninitialized
tracer, and an initialized state at granularity ALL with active trace id 255. -/
theorem current_trace_id_spec_witness :
    current_trace_id ⟨NONE, some (), some 255⟩ = none
    ∧ current_trace_id ⟨ALL, none, some 255⟩ = none
    ∧ current_trace_id ⟨ALL, some (), some 255⟩ = some (traceIdFormat 255)
    ∧ (traceIdFormat 255).length = 32
    ∧ ∀ c ∈ (traceIdFormat 255).toList, c ∈ lowercaseHexDigits :=
  current_trace_id_spec ALL (some ()) 255 (some 255) (by decide) rfl

end FastapiObs
